import Mathlib

/-!
Verification of the Bridge-MCP tool-dispatch and media-aggregation engine.

Shallow embedding of `src/bridge_mcp_server.py` and the service modules
`src/services/jira_service.py`, `src/services/gitlab_service.py`,
`src/services/confluence_service.py`.  Network and upstream-API effects
(Jira attachment listing, attachment downloads, the per-tool GitLab API
bodies) are passed in explicitly as oracle functions; Python exceptions
raised inside a handler's `try` block are modelled as the `.error` case
of `Except String`.  Bytes are `Nat` values below 256.
-/

namespace BridgeMCP

/-- Content block of a tool result: `TextContent` or `ImageContent`
(`mcp.types`).  An image block carries the base64 payload string and the
MIME type, exactly the fields `handle_jira_tool_call` fills in. -/
inductive ContentBlock where
  | text (txt : String)
  | image (data : String) (mimeType : String)
deriving DecidableEq, Repr

/-- Attachment record as built by `get_issue_attachments`
(jira_service.py lines 160-170); the `id` field is never read by the
media pipeline and is omitted. -/
structure Attachment where
  filename : String
  size : Nat
  mime_type : String
  created : String
  author : String
  url : String
deriving DecidableEq, Repr

/-- Tool descriptor (`mcp.types.Tool`).  The `inputSchema` is opaque
pass-through data for the dispatch core (spec §6) and is not modelled. -/
structure Tool where
  name : String
  description : String
deriving DecidableEq, Repr

/-! ### Base64 (Python `base64.b64encode`, RFC 4648) -/

/-- Standard base64 alphabet. -/
def b64Alphabet : List Char :=
  "ABCDEFGHIJKLMNOPQRSTUVWXYZabcdefghijklmnopqrstuvwxyz0123456789+/".toList

/-- Split a byte list into 6-bit groups, three bytes giving four sextets;
a trailing group of one or two bytes gives two or three sextets with the
low bits zero-padded. -/
def bytesToSextets : List Nat → List Nat
  | b1 :: b2 :: b3 :: rest =>
      b1 / 4 :: (b1 % 4 * 16 + b2 / 16) :: (b2 % 16 * 4 + b3 / 64) :: b3 % 64 ::
        bytesToSextets rest
  | [b1, b2] => [b1 / 4, b1 % 4 * 16 + b2 / 16, b2 % 16 * 4]
  | [b1] => [b1 / 4, b1 % 4 * 16]
  | [] => []

/-- Reassemble bytes from 6-bit groups, inverting `bytesToSextets`. -/
def sextetsToBytes : List Nat → List Nat
  | s1 :: s2 :: s3 :: s4 :: rest =>
      (s1 * 4 + s2 / 16) :: (s2 % 16 * 16 + s3 / 4) :: (s3 % 4 * 64 + s4) ::
        sextetsToBytes rest
  | [s1, s2, s3] => [s1 * 4 + s2 / 16, s2 % 16 * 16 + s3 / 4]
  | [s1, s2] => [s1 * 4 + s2 / 16]
  | _ => []

/-- Base64-encode a byte list: alphabet characters for each sextet, then
`=` padding up to a multiple of four characters. -/
def b64encode (bytes : List Nat) : String :=
  let sx := bytesToSextets bytes
  String.mk (sx.map (fun s => b64Alphabet.getD s '=') ++
    List.replicate ((4 - sx.length % 4) % 4) '=')

/-- Base64-decode: drop padding, map characters back to sextets, pack
into bytes. -/
def b64decode (s : String) : List Nat :=
  sextetsToBytes (((s.toList.filter (fun c => c != '=')).map
    (fun c => b64Alphabet.indexOf c)))

theorem sextets_bytes_inverse :
    ∀ l : List Nat, (∀ b ∈ l, b < 256) →
      sextetsToBytes (bytesToSextets l) = l
  | [], _ => by simp [bytesToSextets, sextetsToBytes]
  | [b1], h => by
      have hb1 : b1 < 256 := h b1 (by simp)
      simp only [bytesToSextets, sextetsToBytes, List.cons.injEq, eq_self_iff_true, and_true]
      omega
  | [b1, b2], h => by
      have hb1 : b1 < 256 := h b1 (by simp)
      have hb2 : b2 < 256 := h b2 (by simp)
      simp only [bytesToSextets, sextetsToBytes, List.cons.injEq, eq_self_iff_true, and_true]
      omega
  | b1 :: b2 :: b3 :: rest, h => by
      have hb1 : b1 < 256 := h b1 (by simp)
      have hb2 : b2 < 256 := h b2 (by simp)
      have hb3 : b3 < 256 := h b3 (by simp)
      have ih := sextets_bytes_inverse rest (fun b hb => h b (by simp [hb]))
      simp only [bytesToSextets, sextetsToBytes, ih, List.cons.injEq, eq_self_iff_true, and_true]
      refine ⟨by omega, by omega, by omega⟩

theorem bytesToSextets_lt :
    ∀ l : List Nat, (∀ b ∈ l, b < 256) →
      ∀ s ∈ bytesToSextets l, s < 64
  | [], _ => by simp [bytesToSextets]
  | [b1], h => by
      have hb1 : b1 < 256 := h b1 (by simp)
      simp only [bytesToSextets, List.mem_cons, List.not_mem_nil, or_false]
      rintro s (rfl | rfl) <;> omega
  | [b1, b2], h => by
      have hb1 : b1 < 256 := h b1 (by simp)
      have hb2 : b2 < 256 := h b2 (by simp)
      simp only [bytesToSextets, List.mem_cons, List.not_mem_nil, or_false]
      rintro s (rfl | rfl | rfl) <;> omega
  | b1 :: b2 :: b3 :: rest, h => by
      have hb1 : b1 < 256 := h b1 (by simp)
      have hb2 : b2 < 256 := h b2 (by simp)
      have hb3 : b3 < 256 := h b3 (by simp)
      have ih := bytesToSextets_lt rest (fun b hb => h b (by simp [hb]))
      simp only [bytesToSextets, List.mem_cons]
      rintro s (rfl | rfl | rfl | rfl | hs)
      · omega
      · omega
      · omega
      · omega
      · exact ih s hs

theorem b64Alphabet_getD_ne_pad :
    ∀ i : Fin 64, (b64Alphabet.getD i.val '=' != '=') = true := by
  decide

theorem b64Alphabet_indexOf_getD :
    ∀ i : Fin 64, b64Alphabet.indexOf (b64Alphabet.getD i.val '=') = i.val := by
  decide

/-- Base64 round trip: decoding the encoding of any byte list returns it
unchanged. -/
theorem b64_roundtrip (bytes : List Nat) (h : ∀ b ∈ bytes, b < 256) :
    b64decode (b64encode bytes) = bytes := by
  have hsx := bytesToSextets_lt bytes h
  unfold b64encode b64decode
  have htl : (String.mk ((bytesToSextets bytes).map (fun s => b64Alphabet.getD s '=') ++
      List.replicate ((4 - (bytesToSextets bytes).length % 4) % 4) '=')).toList =
      (bytesToSextets bytes).map (fun s => b64Alphabet.getD s '=') ++
      List.replicate ((4 - (bytesToSextets bytes).length % 4) % 4) '=' := rfl
  rw [htl, List.filter_append]
  have hfilt1 : ((bytesToSextets bytes).map (fun s => b64Alphabet.getD s '=')).filter
      (fun c => c != '=') = (bytesToSextets bytes).map (fun s => b64Alphabet.getD s '=') := by
    apply List.filter_eq_self.mpr
    intro c hc
    obtain ⟨s, hs, rfl⟩ := List.mem_map.mp hc
    exact b64Alphabet_getD_ne_pad ⟨s, hsx s hs⟩
  have hfilt2 : (List.replicate ((4 - (bytesToSextets bytes).length % 4) % 4) '=').filter
      (fun c => c != '=') = [] := by
    simp
  rw [hfilt1, hfilt2, List.append_nil, List.map_map]
  have hmap : (bytesToSextets bytes).map
      ((fun c => b64Alphabet.indexOf c) ∘ fun s => b64Alphabet.getD s '=') =
      (bytesToSextets bytes).map id :=
    List.map_congr_left (fun s hs => b64Alphabet_indexOf_getD ⟨s, hsx s hs⟩)
  rw [hmap, List.map_id]
  exact sextets_bytes_inverse bytes h

/-! ### Jira service (`src/services/jira_service.py`) -/

/-- Python `str.lower()` on the character list (ASCII lowering, which
agrees with Python on the MIME-type strings in play). -/
def pyLower (s : String) : String :=
  String.mk (s.toList.map Char.toLower)

/-- Python `s.startswith(p)` on the character list. -/
def pyStartsWith (s p : String) : Bool :=
  p.toList.isPrefixOf s.toList

/-- Mapping of MIME type to MCP media type for images
(`get_attachment_media_type`, jira_service.py lines 200-210). -/
def get_attachment_media_type (mime_type : String) : Option String :=
  if pyLower mime_type = "image/png" then some "image/png"
  else if pyLower mime_type = "image/jpeg" then some "image/jpeg"
  else if pyLower mime_type = "image/jpg" then some "image/jpeg"
  else if pyLower mime_type = "image/gif" then some "image/gif"
  else if pyLower mime_type = "image/webp" then some "image/webp"
  else if pyLower mime_type = "image/svg+xml" then some "image/svg+xml"
  else none

/-- Supported image/video check (`is_supported_media`, jira_service.py
lines 213-220): lowercased MIME type membership in the fixed list. -/
def is_supported_media (mime_type : String) : Bool :=
  ["image/png", "image/jpeg", "image/jpg", "image/gif",
   "image/webp", "image/svg+xml",
   "video/mp4", "video/quicktime", "video/x-msvideo", "video/webm"].contains
    (pyLower mime_type)

/-- Digit grouping of Python's format spec `:,` applied to a reversed
digit list: a comma after every third digit from the right. -/
def groupDigits : List Char → List Char
  | c1 :: c2 :: c3 :: c4 :: rest => c1 :: c2 :: c3 :: ',' :: groupDigits (c4 :: rest)
  | l => l

/-- Decimal rendering with thousands separators, Python's
f-string `:,` format used for the attachment size. -/
def commaFmt (n : Nat) : String :=
  String.mk (groupDigits (toString n).toList.reverse).reverse

/-- Oracle view of the Jira module's effectful collaborators.
`getAttachments` is the outcome of `get_issue_attachments` (`.ok []`
covers both the empty issue and its internally caught `JIRAError`;
`.error` is an exception propagating into the handler's `try` block).
`download` is `download_attachment`, which returns `None` on a request
failure.  `otherTool` abstracts the bodies of the four non-media tools
(`get_jira_issue`, `search_jira_issues`, `get_issue_comments`,
`get_issue_attachments`), whose markdown field formatting is the
out-of-scope display layer. -/
structure JiraEnv where
  clientInit : Bool
  getAttachments : String → Except String (List Attachment)
  download : String → Option (List Nat)
  otherTool : String → Except String (List ContentBlock)

/-- Blocks emitted for one retained media attachment in the download
loop of `get_issue_media` (jira_service.py lines 490-536), at 1-based
position `i`. -/
def processMediaAttachment (download : String → Option (List Nat)) (i : Nat)
    (a : Attachment) : List ContentBlock :=
  match download a.url with
  | none =>
      [.text ("\n‚ö†Ô∏è Failed to download: " ++
        a.filename ++ "\n")]
  | some content =>
      ContentBlock.text ("\n## " ++ toString i ++ ". " ++ a.filename ++ "\n" ++
        "- **Type:** " ++ a.mime_type ++ "\n" ++
        "- **Size:** " ++ commaFmt a.size ++ " bytes\n" ++
        "- **Author:** " ++ a.author ++ "\n" ++
        "- **Created:** " ++ a.created ++ "\n\n") ::
      (if pyStartsWith a.mime_type "image/" then
        match get_attachment_media_type a.mime_type with
        | some media_type => [.image (b64encode content) media_type]
        | none =>
            [.text ("‚ö†Ô∏è Unsupported image format: " ++
              a.mime_type ++ "\n")]
      else
        [.text ("üé• Video file (download to view): " ++
          a.url ++ "\n")])

/-- Download loop over the retained attachments, `enumerate(..., 1)`. -/
def processMediaAttachments (download : String → Option (List Nat)) (i : Nat) :
    List Attachment → List ContentBlock
  | [] => []
  | a :: rest =>
      processMediaAttachment download i a ++ processMediaAttachments download (i + 1) rest

/-- Body of the `get_issue_media` branch of `handle_jira_tool_call`
(jira_service.py lines 455-538), after the `issue_key` presence check:
list attachments, handle the empty case, filter by `is_supported_media`,
handle the none-supported case, truncate to `max_files`, emit the
summary block and the per-attachment blocks. -/
def get_issue_media_result (env : JiraEnv) (issue_key : String) (max_files : Nat) :
    Except String (List ContentBlock) :=
  match env.getAttachments issue_key with
  | .error e => .error e
  | .ok attachments =>
      if attachments.isEmpty then
        .ok [.text ("No attachments found for issue " ++ issue_key)]
      else
        let media_attachments := attachments.filter (fun a => is_supported_media a.mime_type)
        if media_attachments.isEmpty then
          .ok [.text ("No images or videos found for issue " ++ issue_key ++
            ". Found " ++ toString attachments.length ++ " other attachment(s).")]
        else
          let kept := media_attachments.take max_files
          .ok (ContentBlock.text ("# Media Attachments for " ++ issue_key ++
              "\n\n" ++ "Found " ++ toString kept.length ++ " image(s)/video(s):\n\n") ::
            processMediaAttachments env.download 1 kept)

/-- Dispatch inside the Jira handler's `try` block (jira_service.py
lines 323-541).  Python falsiness of a missing or empty `issue_key`
is `Option.getD "" = ""`; `max_files` defaults to 10. -/
def jiraBody (env : JiraEnv) (name : String) (issueKey? : Option String)
    (maxFiles? : Option Nat) : Except String (List ContentBlock) :=
  if name = "get_jira_issue" then env.otherTool name
  else if name = "search_jira_issues" then env.otherTool name
  else if name = "get_issue_comments" then env.otherTool name
  else if name = "get_issue_attachments" then env.otherTool name
  else if name = "get_issue_media" then
    let issue_key := issueKey?.getD ""
    let max_files := maxFiles?.getD 10
    if issue_key = "" then .ok [.text "Error: issue_key is required"]
    else get_issue_media_result env issue_key max_files
  else .ok [.text ("Unknown Jira tool: " ++ name)]

/-- Jira handler `handle_jira_tool_call` (jira_service.py lines
309-548): client-presence guard, then the `try` body with the
catch-all `except Exception` converting a raised exception into one
text block tagged with the tool name. -/
def handle_jira_tool_call (env : JiraEnv) (name : String) (issueKey? : Option String)
    (maxFiles? : Option Nat) : List ContentBlock :=
  if env.clientInit = false then
    [.text "Error: Jira client not initialized. Please check your JIRA_PERSONAL_ACCESS_TOKEN."]
  else
    match jiraBody env name issueKey? maxFiles? with
    | .ok blocks => blocks
    | .error e => [.text ("Error executing " ++ name ++ ": " ++ e)]

/-! ### GitLab and Confluence handlers -/

/-- Oracle view of the GitLab module: library availability, client
initialization, and the per-tool dispatch body inside the handler's
`try` block (gitlab_service.py lines 352-641), abstracted as an
`Except`-valued function (`.error` is a raised exception). -/
structure GitlabEnv where
  available : Bool
  clientInit : Bool
  body : String → Except String (List ContentBlock)

/-- GitLab handler `handle_gitlab_tool_call` (gitlab_service.py lines
335-648): availability and client guards, then the `try` body with the
catch-all `except Exception` producing `Error: <message>` (without the
tool name). -/
def handle_gitlab_tool_call (env : GitlabEnv) (name : String) : List ContentBlock :=
  if env.available = false then
    [.text "Error: python-gitlab library not installed. Run: pip install python-gitlab"]
  else if env.clientInit = false then
    [.text "Error: GitLab client not initialized. Please check your GITLAB_PERSONAL_ACCESS_TOKEN."]
  else
    match env.body name with
    | .ok blocks => blocks
    | .error e => [.text ("Error: " ++ e)]

/-- Confluence handler `handle_confluence_tool_call`
(confluence_service.py lines 71-89): unconditional placeholder replies,
no `try` block and no raising code. -/
def handle_confluence_tool_call (clientInit : Bool) (name : String) : List ContentBlock :=
  if clientInit = false then
    [.text "Error: Confluence service not yet implemented or client not initialized."]
  else
    [.text ("Confluence tool '" ++ name ++ "' not yet implemented")]

/-! ### Bridge server (`src/bridge_mcp_server.py`) -/

/-- Enablement state, the `enabled_services` dict after
`initialize_services` has inserted the keys `jira`, `gitlab`,
`confluence` in that order. -/
structure Registry where
  jira : Bool
  gitlab : Bool
  confluence : Bool
deriving DecidableEq, Repr

/-- Dict lookup `enabled_services.get(id, False)`. -/
def is_enabled (r : Registry) (id : String) : Bool :=
  if id = "jira" then r.jira
  else if id = "gitlab" then r.gitlab
  else if id = "confluence" then r.confluence
  else false

/-- Comprehension `[k for k, v in enabled_services.items() if v]` in
dict insertion order. -/
def enabled_ids (r : Registry) : List String :=
  (if r.jira then ["jira"] else []) ++
  (if r.gitlab then ["gitlab"] else []) ++
  (if r.confluence then ["confluence"] else [])

/-- The `jira_tools` name set of `call_tool` (bridge_mcp_server.py
lines 122-123). -/
def jira_tool_names : List String :=
  ["get_jira_issue", "search_jira_issues", "get_issue_comments",
   "get_issue_attachments", "get_issue_media"]

/-- The `gitlab_tools` name set of `call_tool` (bridge_mcp_server.py
lines 133-134). -/
def gitlab_tool_names : List String :=
  ["get_gitlab_project", "list_gitlab_projects", "list_merge_requests",
   "get_merge_request", "list_pipelines", "get_pipeline",
   "list_gitlab_issues", "get_gitlab_issue"]

/-- The `confluence_tools` name set of `call_tool` (bridge_mcp_server.py
lines 144-145). -/
def confluence_tool_names : List String :=
  ["get_confluence_page", "search_confluence_pages", "get_space",
   "list_spaces", "get_page_children", "get_page_attachments",
   "get_page_comments"]

/-- Jira catalog `get_jira_tools` (jira_service.py lines 223-306). -/
def get_jira_tools : List Tool :=
  [⟨"get_jira_issue",
    "Get detailed information about a specific Jira issue by its key (e.g., BAL-7437)"⟩,
   ⟨"search_jira_issues",
    "Search for Jira issues using JQL (Jira Query Language)"⟩,
   ⟨"get_issue_comments",
    "Get all comments for a specific Jira issue"⟩,
   ⟨"get_issue_attachments",
    "Get all attachments for a specific Jira issue"⟩,
   ⟨"get_issue_media",
    "Download and display images and videos attached to a Jira issue. Returns actual image content that can be displayed inline."⟩]

/-- GitLab catalog `get_gitlab_tools` (gitlab_service.py lines 162-333). -/
def get_gitlab_tools : List Tool :=
  [⟨"get_gitlab_project",
    "Get detailed information about a GitLab project by its ID or path (e.g., 'group/project')"⟩,
   ⟨"list_gitlab_projects",
    "List GitLab projects accessible to the authenticated user"⟩,
   ⟨"get_merge_request",
    "Get detailed information about a specific merge request"⟩,
   ⟨"list_merge_requests",
    "List merge requests for a project"⟩,
   ⟨"list_pipelines",
    "List CI/CD pipelines for a project"⟩,
   ⟨"get_pipeline",
    "Get detailed information about a specific pipeline"⟩,
   ⟨"list_gitlab_issues",
    "List issues for a GitLab project"⟩,
   ⟨"get_gitlab_issue",
    "Get detailed information about a specific GitLab issue"⟩]

/-- Confluence catalog `get_confluence_tools` (confluence_service.py
lines 56-69): empty, the service is unimplemented. -/
def get_confluence_tools : List Tool := []

/-- Tool catalog aggregator `list_tools` (bridge_mcp_server.py lines
97-114): start from an empty list, extend with each enabled provider's
catalog in registration order. -/
def list_tools (r : Registry) : List Tool :=
  (if r.jira then get_jira_tools else []) ++
  (if r.gitlab then get_gitlab_tools else []) ++
  (if r.confluence then get_confluence_tools else [])

/-- Dispatcher `call_tool` (bridge_mcp_server.py lines 117-158):
membership tests against the three name sets in order, an enablement
guard per provider, forwarding to the provider handler, and the
unknown-tool reply listing the enabled service ids. -/
def call_tool (r : Registry) (jEnv : JiraEnv) (gEnv : GitlabEnv)
    (confluenceInit : Bool) (name : String) (issueKey? : Option String)
    (maxFiles? : Option Nat) : List ContentBlock :=
  if name ∈ jira_tool_names then
    if is_enabled r "jira" = false then
      [.text "Error: Jira service is not enabled. Please check your JIRA_PERSONAL_ACCESS_TOKEN."]
    else handle_jira_tool_call jEnv name issueKey? maxFiles?
  else if name ∈ gitlab_tool_names then
    if is_enabled r "gitlab" = false then
      [.text "Error: GitLab service is not enabled or not yet implemented."]
    else handle_gitlab_tool_call gEnv name
  else if name ∈ confluence_tool_names then
    if is_enabled r "confluence" = false then
      [.text "Error: Confluence service is not enabled or not yet implemented."]
    else handle_confluence_tool_call confluenceInit name
  else
    [.text ("Error: Unknown tool '" ++ name ++ "'. Available services: " ++
      String.intercalate ", " (enabled_ids r))]

/-! ### Specification-side definitions and fixtures -/

/-- Registration order of the providers (spec §4.2). -/
def provider_order : List String := ["jira", "gitlab", "confluence"]

/-- Static catalog of each provider id, for the aggregator refinement. -/
def catalog_of (id : String) : List Tool :=
  if id = "jira" then get_jira_tools
  else if id = "gitlab" then get_gitlab_tools
  else if id = "confluence" then get_confluence_tools
  else []

/-- MIME allow-list exactly as the specification words it (spec §4.4
step 2): nine entries, no `image/jpg`, exact match. -/
def specAllowList : List String :=
  ["image/png", "image/jpeg", "image/gif", "image/webp", "image/svg+xml",
   "video/mp4", "video/quicktime", "video/x-msvideo", "video/webm"]

/-- Inert Jira environment for concrete instantiations. -/
def fixtureJiraEnv : JiraEnv :=
  { clientInit := true, getAttachments := fun _ => Except.ok [],
    download := fun _ => none, otherTool := fun _ => Except.ok [] }

/-- Inert GitLab environment for concrete instantiations. -/
def fixtureGitlabEnv : GitlabEnv :=
  { available := true, clientInit := true, body := fun _ => Except.ok [] }

/-- Jira environment whose attachment listing raises an exception
with message `boom`. -/
def raisingJiraEnv : JiraEnv :=
  { clientInit := true, getAttachments := fun _ => Except.error "boom",
    download := fun _ => none, otherTool := fun _ => Except.ok [] }

/-- GitLab environment whose tool body raises an exception with
message `boom`. -/
def raisingGitlabEnv : GitlabEnv :=
  { available := true, clientInit := true, body := fun _ => Except.error "boom" }

/-- Attachment `A` of the ordering scenario (spec §8). -/
def attA : Attachment := ⟨"a.png", 3, "image/png", "2024-01-01", "alice", "http://x/a"⟩

/-- Attachment `B` of the ordering scenario. -/
def attB : Attachment := ⟨"b.mp4", 5, "video/mp4", "2024-01-02", "bob", "http://x/b"⟩

/-- Attachment `C` of the ordering scenario, not a media type. -/
def attC : Attachment := ⟨"c.txt", 7, "text/plain", "2024-01-03", "carol", "http://x/c"⟩

/-- Attachment `D` of the ordering scenario. -/
def attD : Attachment := ⟨"d.png", 9, "image/png", "2024-01-04", "dave", "http://x/d"⟩

/-- Environment serving the four-attachment issue of the ordering
scenario, every download succeeding with bytes `[1, 2, 3]`. -/
def orderingEnv : JiraEnv :=
  { clientInit := true, getAttachments := fun _ => Except.ok [attA, attB, attC, attD],
    download := fun _ => some [1, 2, 3], otherTool := fun _ => Except.ok [] }

/-- First image of the failure-isolation scenario. -/
def attE : Attachment := ⟨"e.png", 4, "image/png", "2024-02-01", "erin", "http://x/e"⟩

/-- Second image of the failure-isolation scenario. -/
def attF : Attachment := ⟨"f.png", 6, "image/png", "2024-02-02", "finn", "http://x/f"⟩

/-- Environment for the failure-isolation scenario: the download of
`e.png` fails, the download of `f.png` succeeds with `[255, 0, 16]`. -/
def failFirstEnv : JiraEnv :=
  { clientInit := true, getAttachments := fun _ => Except.ok [attE, attF],
    download := fun url => if url = "http://x/f" then some [255, 0, 16] else none,
    otherTool := fun _ => Except.ok [] }

/-- Environment whose only attachment is the text file `c.txt`. -/
def textOnlyEnv : JiraEnv :=
  { clientInit := true, getAttachments := fun _ => Except.ok [attC],
    download := fun _ => none, otherTool := fun _ => Except.ok [] }

theorem mem_gitlab_not_jira {name : String} (h : name ∈ gitlab_tool_names) :
    name ∉ jira_tool_names := by
  fin_cases h <;> decide

theorem mem_confluence_not_jira {name : String} (h : name ∈ confluence_tool_names) :
    name ∉ jira_tool_names := by
  fin_cases h <;> decide

theorem mem_confluence_not_gitlab {name : String} (h : name ∈ confluence_tool_names) :
    name ∉ gitlab_tool_names := by
  fin_cases h <;> decide

/-! ### Claim theorems -/

/-- C7: `list_tools()` returns the concatenation, in the fixed
registration order Jira, GitLab, Confluence, of exactly the catalogs of
the providers whose enablement flag is true, each provider's internal
tool order preserved; a disabled provider contributes zero entries.  The
embedding is a pure function of the registry, so repeated calls on the
same registry state agree and have no side effects. -/
theorem list_tools_enabled_catalogs (r : Registry) :
    list_tools r = (provider_order.filter (fun id => is_enabled r id)).flatMap catalog_of := by
  obtain ⟨j, g, c⟩ := r
  cases j <;> cases g <;> cases c <;> rfl

/-- C2: for a tool name owned by no provider, `call_tool` returns
exactly one Text block, its text contains the literal requested name,
and it contains the comma-separated list of currently enabled provider
ids. -/
theorem dispatch_unknown_tool_reply (r : Registry) (jE : JiraEnv) (gE : GitlabEnv)
    (cI : Bool) (name : String) (ik : Option String) (mf : Option Nat)
    (h1 : name ∉ jira_tool_names) (h2 : name ∉ gitlab_tool_names)
    (h3 : name ∉ confluence_tool_names) :
    call_tool r jE gE cI name ik mf =
      [.text ("Error: Unknown tool '" ++ name ++ "'. Available services: " ++
        String.intercalate ", " (enabled_ids r))] ∧
    name.toList <:+: ("Error: Unknown tool '" ++ name ++ "'. Available services: " ++
        String.intercalate ", " (enabled_ids r)).toList ∧
    (String.intercalate ", " (enabled_ids r)).toList <:+:
      ("Error: Unknown tool '" ++ name ++ "'. Available services: " ++
        String.intercalate ", " (enabled_ids r)).toList := by
  refine ⟨?_, ?_, ?_⟩
  · simp [call_tool, h1, h2, h3]
  · exact ⟨"Error: Unknown tool '".toList,
      ("'. Available services: " ++ String.intercalate ", " (enabled_ids r)).toList,
      by simp⟩
  · exact ⟨("Error: Unknown tool '" ++ name ++ "'. Available services: ").toList, [],
      by simp⟩

/-- Witness for C2 at the concrete unknown name `frobnicate` with Jira
and Confluence enabled. -/
theorem dispatch_unknown_tool_reply_witness :
    call_tool ⟨true, false, true⟩ fixtureJiraEnv fixtureGitlabEnv true "frobnicate" none none =
      [ContentBlock.text "Error: Unknown tool 'frobnicate'. Available services: jira, confluence"] := by
  have h := dispatch_unknown_tool_reply ⟨true, false, true⟩ fixtureJiraEnv fixtureGitlabEnv true
    "frobnicate" none none (by decide) (by decide) (by decide)
  exact h.1.trans (by decide)

/-- C5 counterexample: the code's MIME classification is not exact
matching against the specification's nine-entry allow-list.  It accepts
`image/jpg`, which is not an entry, and it lowercases first, so the
non-entry `IMAGE/PNG` is also accepted. -/
theorem allowlist_exact_match_counterexample :
    is_supported_media "image/jpg" = true ∧ "image/jpg" ∉ specAllowList ∧
    is_supported_media "IMAGE/PNG" = true ∧ "IMAGE/PNG" ∉ specAllowList := by
  decide

/-- C5 amended: an attachment is classified as supported media iff its
lowercased MIME type is one of the ten entries image/png, image/jpeg,
image/jpg, image/gif, image/webp, image/svg+xml, video/mp4,
video/quicktime, video/x-msvideo, video/webm (case-insensitive
matching, with image/jpg also allowed); everything else is rejected by
the classifier and hence excluded from the media result by the filter
step. -/
theorem is_supported_media_characterization (m : String) :
    is_supported_media m = true ↔
      pyLower m ∈ ["image/png", "image/jpeg", "image/jpg", "image/gif",
        "image/webp", "image/svg+xml", "video/mp4", "video/quicktime",
        "video/x-msvideo", "video/webm"] := by
  simp [is_supported_media]

/-- C1 counterexample: with GitLab disabled, the reply for a GitLab tool
is the fixed sentence `Error: GitLab service is not enabled or not yet
implemented.`, which names no missing precondition — in particular not
the provider's credential variable `GITLAB_PERSONAL_ACCESS_TOKEN`, nor
any credential token at all. -/
theorem disabled_provider_message_counterexample :
    call_tool ⟨true, false, false⟩ fixtureJiraEnv fixtureGitlabEnv true
        "get_gitlab_project" none none =
      [ContentBlock.text "Error: GitLab service is not enabled or not yet implemented."] ∧
    ¬ ("GITLAB_PERSONAL_ACCESS_TOKEN".toList <:+:
        "Error: GitLab service is not enabled or not yet implemented.".toList) ∧
    ¬ ("TOKEN".toList <:+:
        "Error: GitLab service is not enabled or not yet implemented.".toList) := by
  decide

/-- C1 amended: for every tool name owned by a disabled provider,
`call_tool` returns exactly one Text block with that provider's fixed
disabled message and never invokes the provider's handler (the reply is
independent of every handler environment).  Only the Jira message names
the missing credential variable (`JIRA_PERSONAL_ACCESS_TOKEN`); the
GitLab and Confluence messages say the service is not enabled or not yet
implemented without naming a credential. -/
theorem dispatch_disabled_provider_reply (r : Registry) (jE jE' : JiraEnv)
    (gE gE' : GitlabEnv) (cI cI' : Bool) (name : String) (ik ik' : Option String)
    (mf mf' : Option Nat) :
    (name ∈ jira_tool_names → r.jira = false →
      call_tool r jE gE cI name ik mf =
        [.text "Error: Jira service is not enabled. Please check your JIRA_PERSONAL_ACCESS_TOKEN."] ∧
      call_tool r jE gE cI name ik mf = call_tool r jE' gE' cI' name ik' mf') ∧
    (name ∈ gitlab_tool_names → r.gitlab = false →
      call_tool r jE gE cI name ik mf =
        [.text "Error: GitLab service is not enabled or not yet implemented."] ∧
      call_tool r jE gE cI name ik mf = call_tool r jE' gE' cI' name ik' mf') ∧
    (name ∈ confluence_tool_names → r.confluence = false →
      call_tool r jE gE cI name ik mf =
        [.text "Error: Confluence service is not enabled or not yet implemented."] ∧
      call_tool r jE gE cI name ik mf = call_tool r jE' gE' cI' name ik' mf') := by
  refine ⟨fun hm hd => ?_, fun hm hd => ?_, fun hm hd => ?_⟩
  · constructor <;> simp [call_tool, hm, is_enabled, hd]
  · have hj := mem_gitlab_not_jira hm
    constructor <;> simp [call_tool, hm, hj, is_enabled, hd]
  · have hj := mem_confluence_not_jira hm
    have hg := mem_confluence_not_gitlab hm
    constructor <;> simp [call_tool, hm, hj, hg, is_enabled, hd]

/-- Witness for the amended C1: the Jira conjunct at a disabled Jira
registry, for `get_issue_media`, with two different environments. -/
theorem dispatch_disabled_provider_reply_witness :
    call_tool ⟨false, true, true⟩ fixtureJiraEnv fixtureGitlabEnv true
        "get_issue_media" (some "X-1") none =
      [ContentBlock.text "Error: Jira service is not enabled. Please check your JIRA_PERSONAL_ACCESS_TOKEN."] ∧
    call_tool ⟨false, true, true⟩ fixtureJiraEnv fixtureGitlabEnv true
        "get_issue_media" (some "X-1") none =
      call_tool ⟨false, true, true⟩ raisingJiraEnv raisingGitlabEnv false
        "get_issue_media" none (some 3) :=
  (dispatch_disabled_provider_reply ⟨false, true, true⟩ fixtureJiraEnv raisingJiraEnv
    fixtureGitlabEnv raisingGitlabEnv true false "get_issue_media" (some "X-1") none
    none (some 3)).1 (by decide) rfl

/-- C4 counterexample: with GitLab enabled, an exception with message
`boom` raised inside the GitLab handler body for `get_pipeline` is
converted to the single Text block `Error: boom`, whose text does not
include the tool name. -/
theorem exception_text_counterexample :
    call_tool ⟨false, true, false⟩ fixtureJiraEnv raisingGitlabEnv true
        "get_pipeline" none none = [ContentBlock.text "Error: boom"] ∧
    ¬ ("get_pipeline".toList <:+: "Error: boom".toList) := by
  decide

/-- C4 amended: an exception raised inside an enabled provider's handler
body is caught before reaching the transport and converted into exactly
one Text block carrying the exception message, so `call_tool` never
propagates a provider exception; the Jira handler's block is
`Error executing <name>: <message>` (tool name included), while the
GitLab handler's block is `Error: <message>` (tool name omitted). -/
theorem dispatch_exception_conversion (r : Registry) (jE : JiraEnv) (gE : GitlabEnv)
    (cI : Bool) (name : String) (ik : Option String) (mf : Option Nat) (e : String) :
    (name ∈ jira_tool_names → r.jira = true → jE.clientInit = true →
      jiraBody jE name ik mf = .error e →
      call_tool r jE gE cI name ik mf =
        [.text ("Error executing " ++ name ++ ": " ++ e)]) ∧
    (name ∈ gitlab_tool_names → r.gitlab = true → gE.available = true →
      gE.clientInit = true → gE.body name = .error e →
      call_tool r jE gE cI name ik mf = [.text ("Error: " ++ e)]) := by
  constructor
  · intro hm hr hc hb
    simp [call_tool, hm, is_enabled, hr, handle_jira_tool_call, hc, hb]
  · intro hm hr ha hc hb
    have hj := mem_gitlab_not_jira hm
    simp [call_tool, hm, hj, is_enabled, hr, handle_gitlab_tool_call, ha, hc, hb]

/-- Witness for the amended C4: a raised `boom` in the Jira media branch
and in a GitLab body, both surfacing as one Text block. -/
theorem dispatch_exception_conversion_witness :
    call_tool ⟨true, true, false⟩ raisingJiraEnv fixtureGitlabEnv true "get_issue_media"
        (some "X-1") none = [ContentBlock.text "Error executing get_issue_media: boom"] ∧
    call_tool ⟨false, true, false⟩ fixtureJiraEnv raisingGitlabEnv true "get_pipeline"
        none none = [ContentBlock.text "Error: boom"] := by
  constructor
  · have h := (dispatch_exception_conversion ⟨true, true, false⟩ raisingJiraEnv
      fixtureGitlabEnv true "get_issue_media" (some "X-1") none "boom").1
      (by decide) rfl rfl rfl
    exact h.trans (by decide)
  · have h := (dispatch_exception_conversion ⟨false, true, false⟩ fixtureJiraEnv
      raisingGitlabEnv true "get_pipeline" none none "boom").2
      (by decide) rfl rfl rfl rfl
    exact h.trans (by decide)

/-- C3: MIME filtering runs on the full attachment list before
truncation, and truncation keeps the first `max_files` entries of the
filtered list in order.  On the scenario attachments
`[A(image/png), B(video/mp4), C(text/plain), D(image/png)]` with
`max_files = 2`, the pipeline retains exactly `A` then `B`: the result
is the summary, A's metadata and image blocks, and B's metadata and
video-link blocks, with no block for `C` or `D`. -/
theorem media_filter_precedes_truncation :
    handle_jira_tool_call orderingEnv "get_issue_media" (some "X-1") (some 2) =
      [ContentBlock.text "# Media Attachments for X-1\n\nFound 2 image(s)/video(s):\n\n",
       ContentBlock.text "\n## 1. a.png\n- **Type:** image/png\n- **Size:** 3 bytes\n- **Author:** alice\n- **Created:** 2024-01-01\n\n",
       ContentBlock.image "AQID" "image/png",
       ContentBlock.text "\n## 2. b.mp4\n- **Type:** video/mp4\n- **Size:** 5 bytes\n- **Author:** bob\n- **Created:** 2024-01-02\n\n",
       ContentBlock.text "üé• Video file (download to view): http://x/b\n"] := by
  decide

/-- C6: a failed download of one retained attachment yields a single
Text block `Failed to download: <filename>` and processing continues:
with two retained images where the first download fails and the second
succeeds, the result is the failure block for the first followed by the
metadata-Text plus image pair for the second, in that order, with no
exception escaping. -/
theorem media_download_failure_isolation :
    handle_jira_tool_call failFirstEnv "get_issue_media" (some "X-2") (some 10) =
      [ContentBlock.text "# Media Attachments for X-2\n\nFound 2 image(s)/video(s):\n\n",
       ContentBlock.text "\n‚ö†Ô∏è Failed to download: e.png\n",
       ContentBlock.text "\n## 2. f.png\n- **Type:** image/png\n- **Size:** 6 bytes\n- **Author:** finn\n- **Created:** 2024-02-02\n\n",
       ContentBlock.image "/wAQ" "image/png"] := by
  decide

/-- C8: boundary cases of the media pipeline.  An empty attachment list
yields exactly one Text block saying no attachments were found for the
item id; a non-empty list with no supported media yields exactly one
Text block reporting zero supported media along with the count of the
other attachments seen. -/
theorem media_boundary_cases (env : JiraEnv) (key : String) (mf? : Option Nat)
    (atts : List Attachment) (hc : env.clientInit = true) (hk : key ≠ "")
    (ha : env.getAttachments key = .ok atts) :
    (atts = [] → handle_jira_tool_call env "get_issue_media" (some key) mf? =
      [.text ("No attachments found for issue " ++ key)]) ∧
    (atts ≠ [] → atts.filter (fun a => is_supported_media a.mime_type) = [] →
      handle_jira_tool_call env "get_issue_media" (some key) mf? =
      [.text ("No images or videos found for issue " ++ key ++ ". Found " ++
        toString atts.length ++ " other attachment(s).")]) := by
  constructor
  · rintro rfl
    simp [handle_jira_tool_call, hc, jiraBody, hk, get_issue_media_result, ha]
  · intro hne hf
    simp [handle_jira_tool_call, hc, jiraBody, hk, get_issue_media_result, ha,
      List.isEmpty_iff, hne, hf]

/-- Witness for C8: the empty issue and the single-text-file issue. -/
theorem media_boundary_cases_witness :
    (handle_jira_tool_call fixtureJiraEnv "get_issue_media" (some "X-0") none =
      [ContentBlock.text "No attachments found for issue X-0"]) ∧
    (handle_jira_tool_call textOnlyEnv "get_issue_media" (some "X-3") none =
      [ContentBlock.text "No images or videos found for issue X-3. Found 1 other attachment(s)."]) := by
  constructor
  · have h := (media_boundary_cases fixtureJiraEnv "X-0" none [] rfl (by decide) rfl).1 rfl
    exact h.trans (by decide)
  · have h := (media_boundary_cases textOnlyEnv "X-3" none [attC] rfl (by decide) rfl).2
      (by decide) (by decide)
    exact h.trans (by decide)

/-- C9: for a retained image attachment whose download succeeds, the
emitted blocks are the metadata Text block followed by an image block
whose payload is the base64 encoding of exactly the downloaded bytes,
and decoding that payload returns those bytes unchanged. -/
theorem media_binary_roundtrip (d : String → Option (List Nat)) (i : Nat)
    (a : Attachment) (content : List Nat) (mt : String)
    (hd : d a.url = some content) (hb : ∀ b ∈ content, b < 256)
    (him : pyStartsWith a.mime_type "image/" = true)
    (hmt : get_attachment_media_type a.mime_type = some mt) :
    processMediaAttachment d i a =
      [.text ("\n## " ++ toString i ++ ". " ++ a.filename ++ "\n" ++
        "- **Type:** " ++ a.mime_type ++ "\n" ++
        "- **Size:** " ++ commaFmt a.size ++ " bytes\n" ++
        "- **Author:** " ++ a.author ++ "\n" ++
        "- **Created:** " ++ a.created ++ "\n\n"),
       .image (b64encode content) mt] ∧
    b64decode (b64encode content) = content := by
  constructor
  · simp [processMediaAttachment, hd, him, hmt]
  · exact b64_roundtrip content hb

/-- Witness for C9 at attachment `e.png` with bytes `[255, 0, 16]`. -/
theorem media_binary_roundtrip_witness :
    processMediaAttachment (fun _ => some [255, 0, 16]) 1 attE =
      [ContentBlock.text "\n## 1. e.png\n- **Type:** image/png\n- **Size:** 4 bytes\n- **Author:** erin\n- **Created:** 2024-02-01\n\n",
       ContentBlock.image "/wAQ" "image/png"] ∧
    b64decode (b64encode [255, 0, 16]) = [255, 0, 16] := by
  have h := media_binary_roundtrip (fun _ => some [255, 0, 16]) 1 attE [255, 0, 16]
    "image/png" rfl (by decide) (by decide) (by decide)
  exact ⟨h.1.trans (by decide), h.2⟩

/-- C10: on an issue with at least one supported media attachment but
`max_files = 0`, the result is exactly the single summary Text block
stating that 0 image(s)/video(s) were found; the zero-supported-media
branch is not taken, and no download is attempted (the result is
independent of the downloader). -/
theorem media_max_files_zero (env : JiraEnv) (key : String) (atts : List Attachment)
    (hc : env.clientInit = true) (hk : key ≠ "")
    (ha : env.getAttachments key = .ok atts) (hne : atts ≠ [])
    (hsup : atts.filter (fun a => is_supported_media a.mime_type) ≠ []) :
    handle_jira_tool_call env "get_issue_media" (some key) (some 0) =
      [.text ("# Media Attachments for " ++ key ++ "\n\n" ++ "Found " ++ "0" ++
        " image(s)/video(s):\n\n")] ∧
    ∀ d' : String → Option (List Nat),
      handle_jira_tool_call { env with download := d' } "get_issue_media" (some key) (some 0) =
      handle_jira_tool_call env "get_issue_media" (some key) (some 0) := by
  have core : ∀ d' : String → Option (List Nat),
      handle_jira_tool_call { env with download := d' } "get_issue_media" (some key) (some 0) =
      [.text ("# Media Attachments for " ++ key ++ "\n\n" ++ "Found " ++ "0" ++
        " image(s)/video(s):\n\n")] := by
    intro d'
    simp [handle_jira_tool_call, hc, jiraBody, hk, get_issue_media_result, ha,
      List.isEmpty_iff, hne, hsup, processMediaAttachments]
    rfl
  exact ⟨core env.download, fun d' => (core d').trans (core env.download).symm⟩

/-- Witness for C10 on the four-attachment ordering issue. -/
theorem media_max_files_zero_witness :
    handle_jira_tool_call orderingEnv "get_issue_media" (some "X-1") (some 0) =
      [ContentBlock.text "# Media Attachments for X-1\n\nFound 0 image(s)/video(s):\n\n"] := by
  have h := (media_max_files_zero orderingEnv "X-1" [attA, attB, attC, attD] rfl
    (by decide) rfl (by decide) (by decide)).1
  exact h.trans (by decide)

end BridgeMCP
